import Mathlib

/-!
# Verification of the watchdog process supervisor (`base.py`)

Shallow embedding of the supervisor's data model and operations.
Timestamps are modelled as integers (seconds); the OS-provided facts a
tick consumes (is the child process alive, what the health probe
returned, the exit code collected by `poll()`) are explicit parameters.
-/

namespace Watchdog

/-- `CHECK_INTERVAL` (base.py line 34). -/
def CHECK_INTERVAL : Int := 3

/-- `UNHEALTHY_GRACE` (base.py line 35). -/
def UNHEALTHY_GRACE : Int := 15

/-- `RESTART_BACKOFF_MAX` (base.py line 36). -/
def RESTART_BACKOFF_MAX : Int := 60

/-- `ALERT_WINDOW_SEC` (base.py line 44). -/
def ALERT_WINDOW_SEC : Int := 120

/-- `ALERT_MAX_RESTARTS` (base.py line 45). -/
def ALERT_MAX_RESTARTS : Nat := 3

/-- `ALERT_COOLDOWN_SEC` (base.py line 46). -/
def ALERT_COOLDOWN_SEC : Int := 300

/-- Path of `STATUS_FILE` (base.py line 41). -/
def STATUS_FILE : String := "runtime/status.json"

/-- Mutable runtime state of one supervised process: the `ProcSpec`
dataclass (base.py lines 52-64) minus the immutable `name`/`cmd`/probe
fields that never change.  The `Popen` handle is modelled as
`proc : Option Bool`: `none` = no handle (`spec.proc is None`),
`some b` = handle present with `b` = "`poll()` returns `None`"
(the OS process is still running). -/
structure ProcState where
  name : String
  proc : Option Bool
  backoff : Int
  last_start : Int
  unhealthy_since : Option Int
  restart_times : List Int
  last_alert : Int
  last_exit_code : Option Int
  last_exit_ts : Option Int
  deriving DecidableEq

/-- `_is_running` (base.py lines 115-116): handle present and not yet exited. -/
def isRunning (s : ProcState) : Bool := s.proc = some true

/-- The sleep `_start` performs before spawning (base.py lines 81-84):
`wait = min(backoff, RESTART_BACKOFF_MAX)`; sleep the remainder of `wait`
since `last_start` when positive. -/
def startWait (backoff last_start now : Int) : Int :=
  let wait := min backoff RESTART_BACKOFF_MAX
  if wait > 0 ∧ now - last_start < wait then wait - (now - last_start) else 0

/-- Append to the `restart_times` deque with `maxlen=50` (base.py line 61):
push right, dropping from the left when over capacity. -/
def dequePush50 (ts : List Int) (t : Int) : List Int :=
  let l := ts ++ [t]
  if l.length > 50 then l.drop (l.length - 50) else l

/-- The backoff-level update performed by `_start` (base.py line 95):
`min(backoff * 2 + 1, RESTART_BACKOFF_MAX) if backoff else 1`. -/
def backoffAdvance (b : Int) : Int :=
  if b ≠ 0 then min (b * 2 + 1) RESTART_BACKOFF_MAX else 1

/-- Iterating `backoffAdvance` from the initial level 0. -/
def backoffTrace : Nat → Int
  | 0 => 0
  | n + 1 => backoffAdvance (backoffTrace n)

/-- State effect of `_start` (base.py lines 80-95), entered at time `now`:
after sleeping out the backoff remainder the child is spawned (handle
alive), `last_start` records the post-sleep spawn time, exit info is
cleared, the spawn time is pushed on the restart ring buffer, and the
backoff level advances.  `unhealthy_since` is not touched. -/
def startState (now : Int) (s : ProcState) : ProcState :=
  let t := now + startWait s.backoff s.last_start now
  { s with
    proc := some true
    last_start := t
    last_exit_code := none
    last_exit_ts := none
    restart_times := dequePush50 s.restart_times t
    backoff := backoffAdvance s.backoff }

/-- State effect of `_stop` (base.py lines 97-113): if a handle is
present, after terminate/kill the exit code collected by `poll()` is
recorded (`exitCode` is the OS-provided value) together with the exit
time; the handle is cleared in every case. -/
def stopState (now exitCode : Int) (s : ProcState) : ProcState :=
  if s.proc.isSome then
    { s with proc := none, last_exit_code := some exitCode, last_exit_ts := some now }
  else
    { s with proc := none }

/-- Number of restart timestamps inside the sliding alert window
(base.py line 133): `[t for t in restart_times if now - t <= ALERT_WINDOW_SEC]`. -/
def recentRestarts (now : Int) (ts : List Int) : Nat :=
  (ts.filter (fun t => now - t ≤ ALERT_WINDOW_SEC)).length

/-- The firing condition of `_maybe_alert` (base.py line 134). -/
def shouldAlertCond (now : Int) (s : ProcState) : Bool :=
  recentRestarts now s.restart_times > ALERT_MAX_RESTARTS ∧
    now - s.last_alert > ALERT_COOLDOWN_SEC

/-- `_maybe_alert` (base.py lines 131-136): returns the updated state and
whether a notification send was attempted. -/
def maybeAlert (now : Int) (s : ProcState) : ProcState × Bool :=
  if shouldAlertCond now s then ({ s with last_alert := now }, true) else (s, false)

/-- `_maybe_reset_backoff` (base.py lines 293-295). -/
def maybeResetBackoff (now : Int) (s : ProcState) : ProcState :=
  if s.backoff ≠ 0 ∧ now - s.last_start > 30 then { s with backoff := 0 } else s

/-- Observable actions the per-process supervision step performs. -/
inductive SupAction
  | alert
  | stop
  | start
  deriving DecidableEq

/-- One tick of the supervision phase for a single process (base.py
lines 314-332).  `healthy` is the probe's answer (only consulted while
the process is alive, matching `s.health_check() if alive else False`);
`ec` is the exit code `_stop` would collect from `poll()`. -/
def tickProc (now : Int) (healthy : Bool) (s : ProcState) (ec : Int) :
    ProcState × List SupAction :=
  if isRunning s = false then
    (startState now (maybeAlert now s).1,
     (if (maybeAlert now s).2 then [SupAction.alert] else []) ++ [SupAction.start])
  else if healthy then
    (maybeResetBackoff now { s with unhealthy_since := none }, [])
  else
    match s.unhealthy_since with
    | none => ({ s with unhealthy_since := some now }, [])
    | some t0 =>
      if now - t0 ≥ UNHEALTHY_GRACE then
        (startState now (stopState now ec (maybeAlert now s).1),
         (if (maybeAlert now s).2 then [SupAction.alert] else []) ++
           [SupAction.stop, SupAction.start])
      else (s, [])

/-- A parsed control command: the `target`/`action` fields read from the
command file's JSON body (`cmd.get(...)` yields `None` when absent). -/
structure Cmd where
  target : Option String
  action : Option String
  deriving DecidableEq

/-- Observable effects of `_apply_cmd`: audit-trail writes to the
last-command file (`_set_last_cmd_state`), process stop/start, and the
drain-marker file write. -/
inductive CmdEvent
  | setState (st : String) (extra : Option String)
  | stopProc (n : String)
  | startProc (n : String)
  | writeDrainMarker
  deriving DecidableEq

/-- Replace the spec with the given name in the table (the Python code
mutates the object found in `name_to_spec` in place; names are unique). -/
def setProc (specs : List ProcState) (s : ProcState) : List ProcState :=
  specs.map (fun p => if p.name = s.name then s else p)

/-- `_apply_cmd` (base.py lines 248-283), under normal operation (no
exception raised by stop/start): returns the updated process table and
the ordered list of observable effects.  `ec` is the exit code `_stop`
would collect. -/
def applyCmd (now ec : Int) (specs : List ProcState) (cmd : Cmd) :
    List ProcState × List CmdEvent :=
  match specs.find? (fun p => cmd.target == some p.name) with
  | none => (specs, [CmdEvent.setState "error" (some "unknown target")])
  | some s =>
    if cmd.action = some "restart" then
      (setProc specs (startState now (stopState now ec s)),
       [CmdEvent.setState "applied" none,
        CmdEvent.setState "executing" (some "restart"),
        CmdEvent.stopProc s.name, CmdEvent.startProc s.name,
        CmdEvent.setState "done" none])
    else if cmd.action = some "stop" then
      if s.name = "web" then
        (specs,
         [CmdEvent.setState "applied" none,
          CmdEvent.setState "error" (some "refuse to stop web")])
      else
        (setProc specs (stopState now ec s),
         [CmdEvent.setState "applied" none,
          CmdEvent.setState "executing" (some "stop"),
          CmdEvent.stopProc s.name, CmdEvent.setState "done" none])
    else if cmd.action = some "start" then
      if isRunning s then
        (specs,
         [CmdEvent.setState "applied" none,
          CmdEvent.setState "done" (some "already running")])
      else
        (setProc specs (startState now s),
         [CmdEvent.setState "applied" none,
          CmdEvent.setState "executing" (some "start"),
          CmdEvent.startProc s.name, CmdEvent.setState "done" none])
    else if cmd.action = some "drain" ∧ s.name = "engine" then
      (specs,
       [CmdEvent.setState "applied" none,
        CmdEvent.setState "executing" (some "drain"),
        CmdEvent.writeDrainMarker, CmdEvent.setState "done" none])
    else
      (specs,
       [CmdEvent.setState "applied" none,
        CmdEvent.setState "error" (some "unknown action")])

/-- `_state_reason` (base.py lines 194-203).  Note `if s.unhealthy_since:`
is Python truthiness, so a `0.0` timestamp is treated like `None`. -/
def stateReason (now : Int) (alive healthy : Bool) (s : ProcState) : String :=
  if alive = false then
    match s.last_exit_code with
    | some c => "stopped (exit " ++ toString c ++ ")"
    | none => "not running"
  else if healthy = false then
    match s.unhealthy_since with
    | some t0 =>
      if t0 ≠ 0 then "unhealthy for " ++ toString (now - t0) ++ "s"
      else "health check failed"
    | none => "health check failed"
  else "ok"

/-- One per-process row of the status snapshot (base.py lines 210-219).
`pidPresent` models whether the `pid` field is non-null
(`(s.proc.pid if alive else None) if s.proc else None`). -/
structure StatusEntry where
  running : Bool
  healthy : Bool
  pidPresent : Bool
  backoff : Int
  last_start : Int
  last_exit_code : Option Int
  last_exit_ts : Option Int
  reason : String
  deriving DecidableEq

/-- File-system writes, for stating how the snapshot is persisted. -/
inductive FileOp
  | writeText (path : String)
  | rename (src dst : String)
  deriving DecidableEq

/-- The per-process part of `_snapshot_status` (base.py lines 206-219):
builds the rows, and records which processes had their `health_check()`
invoked while building them (`healthy = s.health_check() if alive else
False`, line 209).  `probes` gives each probe's answer by process name. -/
def snapshotRows (now : Int) (probes : String → Bool) :
    List ProcState → List (String × StatusEntry) × List String
  | [] => ([], [])
  | s :: rest =>
    let alive := isRunning s
    let healthy := if alive then probes s.name else false
    let entry : StatusEntry :=
      { running := alive
        healthy := healthy
        pidPresent := s.proc.isSome && alive
        backoff := s.backoff
        last_start := s.last_start
        last_exit_code := s.last_exit_code
        last_exit_ts := s.last_exit_ts
        reason := stateReason now alive healthy s }
    let r := snapshotRows now probes rest
    ((s.name, entry) :: r.1, (if alive then [s.name] else []) ++ r.2)

/-- `_snapshot_status` (base.py lines 205-233): the rows plus the
file-system writes used to persist them — a single direct
`STATUS_FILE.write_text(json.dumps(data))` (line 231). -/
def snapshotStatus (now : Int) (probes : String → Bool) (specs : List ProcState) :
    (List (String × StatusEntry) × List String) × List FileOp :=
  (snapshotRows now probes specs, [FileOp.writeText STATUS_FILE])

/-- Modelled from the spec's words (for comparison with the code): an
atomic persist writes the full document to a temporary file and then
renames it over the status file. -/
def atomicPersistPattern (ops : List FileOp) : Prop :=
  ∃ tmp, tmp ≠ STATUS_FILE ∧
    ops = [FileOp.writeText tmp, FileOp.rename tmp STATUS_FILE]

/-- `web_healthy` (base.py lines 138-153).  `resp = none` models a
connection failure (any exception inside the first `try`); `resp = some
status` a response with that HTTP status.  `hbExists`/`hbAge` describe
the heartbeat file (`hbAge` = now minus its mtime). -/
def webHealthy (resp : Option Int) (hbExists : Bool) (hbAge : Int) : Bool :=
  let ok := match resp with
    | some status => decide (200 ≤ status ∧ status < 300)
    | none => false
  if ok then true
  else if hbExists = false then false
  else decide (hbAge < UNHEALTHY_GRACE)

/-- The web probe as the spec words it: healthy iff the response status
is in the success range; the heartbeat fallback applies only on a
connection failure, and a non-success response is unhealthy without the
fallback. -/
def webHealthyClaimed (resp : Option Int) (hbExists : Bool) (hbAge : Int) : Bool :=
  match resp with
  | some status => decide (200 ≤ status ∧ status < 300)
  | none => if hbExists = false then false else decide (hbAge < UNHEALTHY_GRACE)

/-- A response was obtained and its status is in the success range. -/
def respSuccess : Option Int → Prop
  | some status => 200 ≤ status ∧ status < 300
  | none => False

/-- Events inside `_start` relevant to the log file. -/
inductive StartEvent
  | logOpen
  | spawn
  deriving DecidableEq

/-- `_start` (base.py lines 80-95) with the log-file open modelled as
fallible: `open(_log_path(...))` at line 85 is unguarded, so when it
raises, the exception propagates out of `_start` and `Popen` is never
reached (no state mutation happens); when it succeeds, the log file is
opened and the child spawned as in `startState`. -/
def startWithLog (logOpenOk : Bool) (now : Int) (s : ProcState) :
    Except String (ProcState × List StartEvent) :=
  if logOpenOk then
    Except.ok (startState now s, [StartEvent.logOpen, StartEvent.spawn])
  else Except.error "log open failed"

/-- Concrete fixture: a running, healthy web process. -/
def procWeb : ProcState :=
  { name := "web", proc := some true, backoff := 1, last_start := 0,
    unhealthy_since := none, restart_times := [0], last_alert := 0,
    last_exit_code := none, last_exit_ts := none }

/-- Concrete fixture: a running web process 7 levels into backoff,
healthy again for a long stretch. -/
def procWebStable : ProcState :=
  { name := "web", proc := some true, backoff := 7, last_start := 0,
    unhealthy_since := none, restart_times := [0], last_alert := 0,
    last_exit_code := none, last_exit_ts := none }

/-- Concrete fixture: an alive engine process whose probe has been
failing since t = 0 (it was started long ago and its backoff has been
reset by a stable healthy stretch). -/
def procEngineUnhealthy : ProcState :=
  { name := "engine", proc := some true, backoff := 0, last_start := -100,
    unhealthy_since := some 0, restart_times := [-100], last_alert := 0,
    last_exit_code := none, last_exit_ts := none }

/-- Concrete fixture: an engine process that died right after a start
that had already pushed its backoff level to 7. -/
def procEngineDead : ProcState :=
  { name := "engine", proc := some false, backoff := 7, last_start := 0,
    unhealthy_since := none, restart_times := [0], last_alert := 0,
    last_exit_code := none, last_exit_ts := none }

/-- Concrete fixture: a flapping engine with four restarts inside the
alert window and no alert sent yet. -/
def procEngineFlapping : ProcState :=
  { name := "engine", proc := some true, backoff := 15, last_start := 340,
    unhealthy_since := none, restart_times := [300, 310, 320, 340], last_alert := 0,
    last_exit_code := none, last_exit_ts := none }

/-- Concrete fixture: the command `{target: "web", action: "stop"}`. -/
def cmdStopWeb : Cmd := { target := some "web", action := some "stop" }

/-- Concrete fixture: the command `{target: "web", action: "restart"}`. -/
def cmdRestartWeb : Cmd := { target := some "web", action := some "restart" }

/-! ## Helper lemmas -/

theorem startState_backoff (now : Int) (s : ProcState) :
    (startState now s).backoff = backoffAdvance s.backoff := rfl

theorem startState_last_start (now : Int) (s : ProcState) :
    (startState now s).last_start = now + startWait s.backoff s.last_start now := rfl

theorem isRunning_startState (now : Int) (s : ProcState) :
    isRunning (startState now s) = true := rfl

theorem stopState_backoff (now ec : Int) (s : ProcState) :
    (stopState now ec s).backoff = s.backoff := by
  unfold stopState
  split <;> rfl

theorem maybeAlert_backoff (now : Int) (s : ProcState) :
    ((maybeAlert now s).1).backoff = s.backoff := by
  unfold maybeAlert
  split <;> rfl

theorem maybeAlert_last_start (now : Int) (s : ProcState) :
    ((maybeAlert now s).1).last_start = s.last_start := by
  unfold maybeAlert
  split <;> rfl

theorem backoffAdvance_bounds (b : Int) (h0 : 0 ≤ b) (h1 : b ≤ RESTART_BACKOFF_MAX) :
    0 ≤ backoffAdvance b ∧ backoffAdvance b ≤ RESTART_BACKOFF_MAX := by
  unfold backoffAdvance RESTART_BACKOFF_MAX at *
  split <;> omega

theorem backoffAdvance_formula (b : Int) :
    backoffAdvance b = min (b * 2 + 1) RESTART_BACKOFF_MAX := by
  unfold backoffAdvance RESTART_BACKOFF_MAX
  split <;> omega

theorem tickProc_backoff_bounds (now ec : Int) (h : Bool) (s : ProcState)
    (h0 : 0 ≤ s.backoff) (h1 : s.backoff ≤ RESTART_BACKOFF_MAX) :
    0 ≤ ((tickProc now h s ec).1).backoff ∧
      ((tickProc now h s ec).1).backoff ≤ RESTART_BACKOFF_MAX := by
  unfold tickProc
  split
  · simp only [startState_backoff, maybeAlert_backoff]
    exact backoffAdvance_bounds _ h0 h1
  · split
    · unfold maybeResetBackoff
      split
      · constructor
        · show (0 : Int) ≤ 0
          decide
        · show (0 : Int) ≤ RESTART_BACKOFF_MAX
          decide
      · exact ⟨h0, h1⟩
    · split
      · exact ⟨h0, h1⟩
      · split
        · simp only [startState_backoff, stopState_backoff, maybeAlert_backoff]
          exact backoffAdvance_bounds _ h0 h1
        · exact ⟨h0, h1⟩

theorem tickProc_healthy_reset (now ec : Int) (s : ProcState)
    (halive : isRunning s = true) (h30 : now - s.last_start > 30) :
    ((tickProc now true s ec).1).backoff = 0 := by
  have hb : ({ s with unhealthy_since := none } : ProcState).backoff = s.backoff := rfl
  have hl : ({ s with unhealthy_since := none } : ProcState).last_start = s.last_start := rfl
  unfold tickProc
  rw [halive]
  simp only [Bool.true_eq_false, if_false, if_true]
  unfold maybeResetBackoff
  rw [hb, hl]
  split
  · rfl
  · rename_i hcond
    rw [hb]
    omega

/-! ## Claims -/

/-- **C1.** The claim says that a continuous health-probe failure past the
grace period triggers exactly one stop+start cycle per breach and that
every restart clears `unhealthy_since`.  The code never clears
`unhealthy_since` on a restart (`_start` does not touch it), so while
the probe keeps failing the supervisor performs a stop+start cycle at
every tick: from a state unhealthy since t = 0, the tick at t = 20
restarts, leaves `unhealthy_since` at 0, and the very next tick at
t = 23 restarts again. -/
theorem c1_restart_per_tick :
    (∀ (now : Int) (s : ProcState),
      (startState now s).unhealthy_since = s.unhealthy_since) ∧
    (tickProc 20 false procEngineUnhealthy (-15)).2 = [SupAction.stop, SupAction.start] ∧
    ((tickProc 20 false procEngineUnhealthy (-15)).1).unhealthy_since = some 0 ∧
    (tickProc 23 false ((tickProc 20 false procEngineUnhealthy (-15)).1) (-15)).2 =
      [SupAction.stop, SupAction.start] :=
  ⟨fun _ _ => rfl, by decide, by decide, by decide⟩

/-- **C2** (counterexample).  The claim says a crashed process is
restarted immediately with no backoff wait.  With backoff level 7 and a
crash observed 3 seconds after the last start, `_start` sleeps
`startWait 7 0 3 = 4` seconds and the child is spawned at t = 7, not at
the tick time t = 3. -/
theorem c2_counterexample :
    startWait 7 0 3 = 4 ∧
    ((tickProc 3 false procEngineDead 1).1).last_start = 7 ∧
    ((tickProc 3 false procEngineDead 1).1).last_start ≠ 3 := by decide

/-- **C2** (amended).  When a process is found not alive the supervisor
does invoke the start operation in that same tick (no health/grace
gating), but `_start` first sleeps out the remaining backoff delay:
the child is spawned at `now + startWait backoff last_start now`. -/
theorem c2_crash_restart_waits_backoff (now ec : Int) (h : Bool) (s : ProcState)
    (hdead : isRunning s = false) :
    SupAction.start ∈ (tickProc now h s ec).2 ∧
    ((tickProc now h s ec).1).last_start =
      now + startWait s.backoff s.last_start now ∧
    isRunning (tickProc now h s ec).1 = true := by
  refine ⟨?_, ?_, ?_⟩ <;>
    simp [tickProc, hdead, startState_last_start, maybeAlert_backoff,
      maybeAlert_last_start, isRunning_startState]

/-- Witness for `c2_crash_restart_waits_backoff` at a concrete state. -/
theorem c2_witness :
    SupAction.start ∈ (tickProc 3 false procEngineDead 1).2 ∧
    ((tickProc 3 false procEngineDead 1).1).last_start =
      3 + startWait procEngineDead.backoff procEngineDead.last_start 3 ∧
    isRunning (tickProc 3 false procEngineDead 1).1 = true :=
  c2_crash_restart_waits_backoff 3 1 false procEngineDead (by decide)

/-- **C3** (counterexample).  The claim says the snapshot is persisted by
writing a temp file and renaming it over the status file.  The code's
only persist operation is one direct `write_text` to the status file,
which does not match the temp+rename pattern. -/
theorem c3_counterexample :
    ¬ atomicPersistPattern (snapshotStatus 0 (fun _ => false) []).2 := by
  rintro ⟨tmp, -, h⟩
  simp [snapshotStatus] at h

/-- **C3** (amended).  Every tick the snapshot is persisted by a single
direct `write_text` to `runtime/status.json`; no temp file or rename is
involved, so the write is not atomic in the claimed sense. -/
theorem c3_snapshot_direct_write (now : Int) (probes : String → Bool)
    (specs : List ProcState) :
    (snapshotStatus now probes specs).2 = [FileOp.writeText STATUS_FILE] ∧
    ¬ atomicPersistPattern (snapshotStatus now probes specs).2 := by
  refine ⟨rfl, ?_⟩
  rintro ⟨tmp, -, h⟩
  simp [snapshotStatus] at h

/-- **C4** (counterexample).  The claim says snapshot publication does
not invoke any process's health probe.  Building the snapshot for a
single alive process invokes that process's probe (line 209 of base.py):
the list of probed processes is `["web"]`, not `[]`. -/
theorem c4_counterexample :
    (snapshotRows 0 (fun _ => true) [procWeb]).2 = ["web"] ∧
    (snapshotRows 0 (fun _ => true) [procWeb]).2 ≠ ([] : List String) := by decide

/-- **C4** (amended).  Building the status snapshot invokes the health
probe of exactly the alive processes (`healthy = s.health_check() if
alive else False`), so snapshot latency does include probe latency for
every alive process. -/
theorem c4_snapshot_probes_alive (now : Int) (probes : String → Bool)
    (specs : List ProcState) :
    (snapshotRows now probes specs).2 =
      (specs.filter (fun s => isRunning s)).map ProcState.name := by
  induction specs with
  | nil => rfl
  | cons s rest ih =>
    unfold snapshotRows
    cases ha : isRunning s <;> simp [ha, ih, List.filter_cons]

/-- **C5.**  The claim says a log-open failure still spawns the child and
never propagates out of `_start`.  The `open` call at base.py line 85 is
unguarded: when it fails, `_start` raises and `Popen` is never reached —
no spawn happens and no state is mutated. -/
theorem c5_log_open_failure_aborts_start :
    startWithLog false 0 procWeb = Except.error "log open failed" ∧
    startWithLog true 0 procWeb =
      Except.ok (startState 0 procWeb, [StartEvent.logOpen, StartEvent.spawn]) :=
  ⟨rfl, rfl⟩

/-- **C6.**  A `stop` command targeting `"web"` leaves the whole process
table unchanged and always ends the command audit trail with an `error`
record (either "refuse to stop web" when the web process exists, or
"unknown target" when it does not). -/
theorem c6_stop_web_refused (now ec : Int) (specs : List ProcState) (cmd : Cmd)
    (hact : cmd.action = some "stop") (htgt : cmd.target = some "web") :
    (applyCmd now ec specs cmd).1 = specs ∧
    ∃ e, ((applyCmd now ec specs cmd).2).getLast? =
      some (CmdEvent.setState "error" e) := by
  unfold applyCmd
  cases hfind : specs.find? (fun p => cmd.target == some p.name) with
  | none => exact ⟨rfl, ⟨some "unknown target", rfl⟩⟩
  | some s =>
    have hname : s.name = "web" := by
      have h := List.find?_some hfind
      rw [htgt] at h
      simp only [beq_iff_eq, Option.some.injEq] at h
      exact h.symm
    refine ⟨?_, ⟨some "refuse to stop web", ?_⟩⟩ <;> simp [hact, hname]

/-- Witness for `c6_stop_web_refused`: stopping the concrete running web
process is refused and the table is untouched. -/
theorem c6_witness :
    (applyCmd 0 0 [procWeb] cmdStopWeb).1 = [procWeb] ∧
    ∃ e, ((applyCmd 0 0 [procWeb] cmdStopWeb).2).getLast? =
      some (CmdEvent.setState "error" e) :=
  c6_stop_web_refused 0 0 [procWeb] cmdStopWeb rfl rfl

/-- **C7.**  The backoff level always stays in [0, 60]: `_start` advances
it exactly as `min(level*2+1, 60)` (yielding 1, 3, 7, 15, 31, 60, 60, …
from 0, with 60 a fixed point), any supervision tick preserves the
bounds, and a healthy tick more than 30 seconds after the last start
resets the level to 0. -/
theorem c7_backoff_policy :
    (∀ b : Int, 0 ≤ b → b ≤ RESTART_BACKOFF_MAX →
      0 ≤ backoffAdvance b ∧ backoffAdvance b ≤ RESTART_BACKOFF_MAX) ∧
    (∀ b : Int, backoffAdvance b = min (b * 2 + 1) RESTART_BACKOFF_MAX) ∧
    ([backoffTrace 1, backoffTrace 2, backoffTrace 3, backoffTrace 4, backoffTrace 5,
        backoffTrace 6, backoffTrace 7] = [1, 3, 7, 15, 31, 60, 60] ∧
      backoffAdvance RESTART_BACKOFF_MAX = RESTART_BACKOFF_MAX) ∧
    (∀ (now ec : Int) (h : Bool) (s : ProcState),
      0 ≤ s.backoff → s.backoff ≤ RESTART_BACKOFF_MAX →
      0 ≤ ((tickProc now h s ec).1).backoff ∧
        ((tickProc now h s ec).1).backoff ≤ RESTART_BACKOFF_MAX) ∧
    (∀ (now ec : Int) (s : ProcState), isRunning s = true →
      now - s.last_start > 30 → ((tickProc now true s ec).1).backoff = 0) :=
  ⟨backoffAdvance_bounds, backoffAdvance_formula, ⟨by decide, by decide⟩,
   tickProc_backoff_bounds, tickProc_healthy_reset⟩

/-- Witness for `c7_backoff_policy` at concrete inputs: level 31 advances
within bounds, the formula evaluates, a tick preserves the bounds, and a
healthy tick at t = 99 (start at t = 0) resets level 7 to 0. -/
theorem c7_witness :
    (0 ≤ backoffAdvance 31 ∧ backoffAdvance 31 ≤ RESTART_BACKOFF_MAX) ∧
    backoffAdvance 31 = min (31 * 2 + 1) RESTART_BACKOFF_MAX ∧
    (0 ≤ ((tickProc 99 true procWebStable 0).1).backoff ∧
      ((tickProc 99 true procWebStable 0).1).backoff ≤ RESTART_BACKOFF_MAX) ∧
    ((tickProc 99 true procWebStable 0).1).backoff = 0 :=
  ⟨c7_backoff_policy.1 31 (by decide) (by decide),
   c7_backoff_policy.2.1 31,
   c7_backoff_policy.2.2.2.1 99 0 true procWebStable (by decide) (by decide),
   c7_backoff_policy.2.2.2.2 99 0 procWebStable (by decide) (by decide)⟩

/-- **C8** (counterexample).  The claim says a response with a
non-success status is reported unhealthy without the heartbeat fallback.
On a 500 response with a fresh heartbeat file, `web_healthy` falls
through to the heartbeat check and reports healthy, while the claimed
behaviour reports unhealthy. -/
theorem c8_counterexample :
    webHealthy (some 500) true 0 = true ∧
    webHealthyClaimed (some 500) true 0 = false := by decide

/-- **C8** (amended).  `web_healthy` is healthy iff the GET produced a
success-status response, or — on a connection failure *or* any
non-success response — the heartbeat file exists and is fresher than the
grace threshold. -/
theorem c8_fallback_on_any_failure (resp : Option Int) (hb : Bool) (age : Int) :
    webHealthy resp hb age = true ↔
      respSuccess resp ∨ (hb = true ∧ age < UNHEALTHY_GRACE) := by
  cases resp with
  | none => cases hb <;> simp [webHealthy, respSuccess]
  | some status =>
    by_cases hok : 200 ≤ status ∧ status < 300 <;>
      cases hb <;> simp [webHealthy, respSuccess, hok]

/-- **C9.**  `_maybe_alert` attempts a notification send (and stamps
`last_alert := now`) iff strictly more than 3 restarts fall inside the
trailing 120-second window and strictly more than 300 seconds have
passed since the last alert; otherwise the state is returned unchanged. -/
theorem c9_alert_condition (now : Int) (s : ProcState) :
    ((maybeAlert now s).2 = true ↔
      recentRestarts now s.restart_times > ALERT_MAX_RESTARTS ∧
        now - s.last_alert > ALERT_COOLDOWN_SEC) ∧
    ((maybeAlert now s).2 = true →
      (maybeAlert now s).1 = { s with last_alert := now }) ∧
    ((maybeAlert now s).2 = false → (maybeAlert now s).1 = s) := by
  by_cases hcond : recentRestarts now s.restart_times > ALERT_MAX_RESTARTS ∧
      now - s.last_alert > ALERT_COOLDOWN_SEC
  · have hb : shouldAlertCond now s = true := by
      simp [shouldAlertCond, hcond]
    have h : maybeAlert now s = ({ s with last_alert := now }, true) := by
      simp [maybeAlert, hb]
    rw [h]
    simp [hcond]
  · have hb : shouldAlertCond now s = false := by
      simp only [shouldAlertCond, decide_eq_false_iff_not]
      exact hcond
    have h : maybeAlert now s = (s, false) := by
      simp [maybeAlert, hb]
    rw [h]
    simp [hcond]

/-- Witness for `c9_alert_condition`: with 4 restarts inside the window
and no prior alert, the alert fires and stamps `last_alert`. -/
theorem c9_witness :
    (maybeAlert 400 procEngineFlapping).1 =
      { procEngineFlapping with last_alert := 400 } :=
  (c9_alert_condition 400 procEngineFlapping).2.1 (by decide)

/-- **C10.**  A `restart` command targeting `"web"` is not covered by the
critical-process protection: the audit trail records applied, executing,
a stop of web followed by a start of web, and a final `done`; the table
is updated with the restarted (running) web process. -/
theorem c10_restart_web_allowed (now ec : Int) (specs : List ProcState) (cmd : Cmd)
    (s : ProcState)
    (hfind : specs.find? (fun p => cmd.target == some p.name) = some s)
    (hact : cmd.action = some "restart") (htgt : cmd.target = some "web") :
    (applyCmd now ec specs cmd).2 =
      [CmdEvent.setState "applied" none, CmdEvent.setState "executing" (some "restart"),
       CmdEvent.stopProc "web", CmdEvent.startProc "web",
       CmdEvent.setState "done" none] ∧
    (applyCmd now ec specs cmd).1 = setProc specs (startState now (stopState now ec s)) ∧
    isRunning (startState now (stopState now ec s)) = true := by
  have hname : s.name = "web" := by
    have h := List.find?_some hfind
    rw [htgt] at h
    simp only [beq_iff_eq, Option.some.injEq] at h
    exact h.symm
  unfold applyCmd
  rw [hfind]
  simp [hact, hname, isRunning_startState]

/-- Witness for `c10_restart_web_allowed`: restarting the concrete
running web process produces the full stop-then-start-then-done trail. -/
theorem c10_witness :
    (applyCmd 5 0 [procWeb] cmdRestartWeb).2 =
      [CmdEvent.setState "applied" none, CmdEvent.setState "executing" (some "restart"),
       CmdEvent.stopProc "web", CmdEvent.startProc "web",
       CmdEvent.setState "done" none] ∧
    (applyCmd 5 0 [procWeb] cmdRestartWeb).1 =
      setProc [procWeb] (startState 5 (stopState 5 0 procWeb)) ∧
    isRunning (startState 5 (stopState 5 0 procWeb)) = true :=
  c10_restart_web_allowed 5 0 [procWeb] cmdRestartWeb procWeb rfl rfl rfl

end Watchdog
